import Mathlib

/-!
Verification development for the gemini-integrator-mcp server.

This file shallowly embeds the parts of the TypeScript source that govern
the upload-and-poll lifecycle, the media-understanding resolution pipeline,
the validation schemas, and the small filesystem/configuration utilities,
and proves properties about them.

Conventions of the embedding:
* JavaScript strings that may be `undefined` are modelled as `Option String`;
  JavaScript truthiness on such values (`if (s)`, `filter(Boolean)`) is
  modelled by `truthy`, which is false for `none` and for the empty string.
* Asynchronous code is sequentialized; each `await` boundary is a plain call.
* Network responses and filesystem observations are inputs to the embedded
  functions (an environment), so the functions are pure and executable.
-/

namespace GeminiIntegrator

/-- JavaScript truthiness of a possibly-undefined string value. -/
def truthy : Option String → Bool
  | none => false
  | some s => !s.isEmpty

/-- Whether `needle` occurs as a contiguous sublist of the second argument. -/
def subListOccurs (needle : List Char) : List Char → Bool
  | [] => needle.isEmpty
  | c :: t => needle.isPrefixOf (c :: t) || subListOccurs needle t

/-- Whether `needle` occurs as a substring of `hay`. -/
def strContainsSub (hay needle : String) : Bool :=
  subListOccurs needle.data hay.data

/-- JavaScript `s.startsWith(pre)` (kernel-reducible, unlike the byte-level
`String.startsWith` of the standard library). -/
def strStartsWith (s pre : String) : Bool :=
  pre.data.isPrefixOf s.data

/-- `Except` success test. -/
def exceptIsOk {ε α : Type} : Except ε α → Bool
  | .ok _ => true
  | .error _ => false

instance {ε α : Type} [DecidableEq ε] [DecidableEq α] : DecidableEq (Except ε α) := fun x y =>
  match x, y with
  | .ok a, .ok b =>
    if h : a = b then isTrue (by rw [h]) else isFalse (by intro hh; cases hh; exact h rfl)
  | .error a, .error b =>
    if h : a = b then isTrue (by rw [h]) else isFalse (by intro hh; cases hh; exact h rfl)
  | .ok _, .error _ => isFalse (by intro hh; cases hh)
  | .error _, .ok _ => isFalse (by intro hh; cases hh)

/-!
## Byte Transfer Utilities: `deleteFile` (src/utils/fileUtils.ts)

The filesystem is modelled as the finite set of existing paths. `fs.unlink`
either succeeds (path-present, no injected OS fault), fails with `ENOENT`
(path absent), or fails with some other OS error code (the `fault` input
injects such an error, as the OS might produce for e.g. a permission issue).
-/

/-- Outcome of the modelled `fs.unlink` call. -/
inductive UnlinkOutcome
  | ok
  | enoent
  | otherErr (code : String)
deriving DecidableEq, Repr

/-- Modelled `fs.unlink`: removes the path when present and no OS fault is
injected; `ENOENT` when absent; an arbitrary other error when `fault` is set. -/
def fsUnlink (fs : Finset String) (p : String) (fault : Option String) :
    Finset String × UnlinkOutcome :=
  match fault with
  | some c => (fs, .otherErr c)
  | none => if p ∈ fs then (fs.erase p, .ok) else (fs, .enoent)

/-- `deleteFile` from src/utils/fileUtils.ts. The boolean result records
whether an exception escaped to the caller. The source logs and returns in
all three cases: success, `ENOENT` ("File not found for deletion"), and any
other error (the rethrow is commented out in the source). -/
def deleteFile (fs : Finset String) (p : String) (fault : Option String) :
    Finset String × Bool :=
  match fsUnlink fs p fault with
  | (fs2, .ok) => (fs2, false)
  | (fs2, .enoent) => (fs2, false)
  | (fs2, .otherErr _) => (fs2, false)

/-!
## Inline-size limit computation (src/utils/mediaLimitUtils.ts)
-/

/-- Hard limit for Gemini inline data, from the source constant. -/
def GEMINI_MAX_INLINE_SIZE_BYTES : Nat := 20 * 1024 * 1024

/-- Default limit in MB when the user configures nothing usable. -/
def DEFAULT_UNDERSTAND_MEDIA_LIMIT_MB : Int := 20

/-- Accumulate a leading run of decimal digits (JavaScript `parseInt` body). -/
def jsDigitsAux : List Char → Nat → Nat
  | [], acc => acc
  | c :: t, acc => if c.isDigit then jsDigitsAux t (acc * 10 + (c.toNat - 48)) else acc

/-- Value of the leading digit run, `none` when the first char is not a digit. -/
def jsLeadingNat : List Char → Option Nat
  | [] => none
  | c :: t => if c.isDigit then some (jsDigitsAux t (c.toNat - 48)) else none

/-- JavaScript `parseInt(s, 10)`: skip leading whitespace, optional sign,
then the longest leading digit run; `NaN` (here `none`) when no digit. -/
def jsParseIntBase10 (s : String) : Option Int :=
  let cs := s.data.dropWhile fun c => c = ' ' || c = '\t' || c = '\n' || c = '\r'
  match cs with
  | '-' :: t => (jsLeadingNat t).map fun n => -(n : Int)
  | '+' :: t => (jsLeadingNat t).map fun n => (n : Int)
  | t => (jsLeadingNat t).map fun n => (n : Int)

/-- `RAW_UNDERSTAND_MEDIA_SIZE_LIMIT_MB || String(DEFAULT)`: the raw
environment value with the falsy (undefined / empty) cases defaulted. -/
def rawOrDefault (raw : Option String) : String :=
  match raw with
  | some s => if s.isEmpty then "20" else s
  | none => "20"

/-- The validated user limit in MB: the parsed raw value unless parsing
failed (`NaN`) or the value is non-positive, in which case the default. -/
def validatedUserLimitMB (raw : Option String) : Int :=
  match jsParseIntBase10 (rawOrDefault raw) with
  | none => DEFAULT_UNDERSTAND_MEDIA_LIMIT_MB
  | some v => if v ≤ 0 then DEFAULT_UNDERSTAND_MEDIA_LIMIT_MB else v

/-- `getEffectiveMediaSizeLimit` from src/utils/mediaLimitUtils.ts:
returns (limitMB, limitBytes) where the bytes are the validated user limit
converted to bytes, capped by the Gemini hard inline limit. -/
def getEffectiveMediaSizeLimit (raw : Option String) : Nat × Nat :=
  let effectiveLimitBytes :=
    min ((validatedUserLimitMB raw).toNat * 1024 * 1024) GEMINI_MAX_INLINE_SIZE_BYTES
  (effectiveLimitBytes / 1024 / 1024, effectiveLimitBytes)

/-!
## Notification configuration (src/index.ts)
-/

/-- The five notification-channel environment variables. -/
structure NotifConfig where
  ONEBOT_HTTP_URL : Option String
  ONEBOT_MESSAGE_TYPE : Option String
  ONEBOT_TARGET_ID : Option String
  TELEGRAM_BOT_TOKEN : Option String
  TELEGRAM_CHAT_ID : Option String

/-- `isNotificationConfigured` from src/index.ts. -/
def isNotificationConfigured (c : NotifConfig) : Bool :=
  (truthy c.ONEBOT_HTTP_URL && truthy c.ONEBOT_MESSAGE_TYPE && truthy c.ONEBOT_TARGET_ID)
    || (truthy c.TELEGRAM_BOT_TOKEN && truthy c.TELEGRAM_CHAT_ID)

/-- `getConfiguredNotifiers` from src/index.ts. -/
def getConfiguredNotifiers (c : NotifConfig) : String :=
  let configured :=
    (if truthy c.ONEBOT_HTTP_URL && truthy c.ONEBOT_MESSAGE_TYPE && truthy c.ONEBOT_TARGET_ID
      then ["OneBot"] else [])
    ++ (if truthy c.TELEGRAM_BOT_TOKEN && truthy c.TELEGRAM_CHAT_ID then ["Telegram"] else [])
  if configured.isEmpty then "none" else String.intercalate "/" configured

/-- The synchronous front part of `handleUploadLargeMedia`
(src/tools/uploadLargeMedia.ts): checks the notification configuration and
either returns the error text with no background task scheduled, or returns
the initiation text and schedules the background task (`setImmediate`).
The boolean records whether the background task (download, upload, polling)
was scheduled. -/
def handleUploadLargeMediaFront (c : NotifConfig) (url p : Option String) :
    String × Bool :=
  let originalSource :=
    if truthy url then url.getD "" else if truthy p then p.getD "" else "unknown_source"
  if !(isNotificationConfigured c) then
    ("Error: Notification system (OneBot/Telegram) must be configured in the MCP server's environment variables to use this tool.", false)
  else
    ("Initiating background upload for large media: " ++ originalSource
      ++ ". You will receive a notification via " ++ getConfiguredNotifiers c
      ++ " upon completion or failure.", true)

/-!
## Theorems: C7, C8, C9
-/

/-- Claim C7: the effective inline threshold in bytes equals the minimum of
the validated user-configured MB value converted to bytes and the hard 20 MB
ceiling; it never exceeds 20971520 bytes; and an unparsable or non-positive
configured value falls back to the 20 MB default. -/
theorem effective_media_limit_capped (raw : Option String) :
    (getEffectiveMediaSizeLimit raw).2
        = min ((validatedUserLimitMB raw).toNat * 1048576) 20971520
    ∧ (getEffectiveMediaSizeLimit raw).2 ≤ 20971520
    ∧ ((jsParseIntBase10 (rawOrDefault raw) = none
          ∨ ∃ v, jsParseIntBase10 (rawOrDefault raw) = some v ∧ v ≤ 0) →
        (getEffectiveMediaSizeLimit raw).2 = 20971520) := by
  have hmul : ∀ x : Nat, x * 1024 * 1024 = x * 1048576 := by intro x; ring
  have hmax : GEMINI_MAX_INLINE_SIZE_BYTES = 20971520 := by
    unfold GEMINI_MAX_INLINE_SIZE_BYTES; norm_num
  refine ⟨?_, ?_, ?_⟩
  · show min ((validatedUserLimitMB raw).toNat * 1024 * 1024) GEMINI_MAX_INLINE_SIZE_BYTES
        = min ((validatedUserLimitMB raw).toNat * 1048576) 20971520
    rw [hmul, hmax]
  · show min ((validatedUserLimitMB raw).toNat * 1024 * 1024) GEMINI_MAX_INLINE_SIZE_BYTES
        ≤ 20971520
    rw [hmax]
    exact Nat.min_le_right _ _
  · intro h
    have hv : validatedUserLimitMB raw = 20 := by
      unfold validatedUserLimitMB
      rcases h with h | ⟨v, hv, hle⟩
      · rw [h]
        rfl
      · rw [hv]
        simp [hle, DEFAULT_UNDERSTAND_MEDIA_LIMIT_MB]
    show min ((validatedUserLimitMB raw).toNat * 1024 * 1024) GEMINI_MAX_INLINE_SIZE_BYTES
        = 20971520
    rw [hv]
    decide

/-- Witness for `effective_media_limit_capped`: a non-positive configured
value ("0") falls back to the 20 MB default. -/
theorem effective_media_limit_capped_witness :
    (getEffectiveMediaSizeLimit (some "0")).2 = 20971520 :=
  (effective_media_limit_capped (some "0")).2.2 (.inr ⟨0, by decide, by decide⟩)

/-- Claim C8: `deleteFile` never raises to its caller, deleting an absent
path has the same externally observable outcome (silent success) as deleting
an existing one (and in both cases the path is absent afterwards), the
operation is idempotent, and any other OS error is swallowed. -/
theorem deleteFile_idempotent_silent (fs : Finset String) (p : String)
    (fault : Option String) :
    (deleteFile fs p fault).2 = false
    ∧ (fault = none →
        p ∉ (deleteFile fs p none).1
        ∧ deleteFile (deleteFile fs p none).1 p none = ((deleteFile fs p none).1, false))
    ∧ (p ∉ fs → deleteFile fs p none = (fs, false)) := by
  refine ⟨?_, ?_, ?_⟩
  · unfold deleteFile fsUnlink
    rcases fault with _ | c
    · by_cases h : p ∈ fs <;> simp [h]
    · rfl
  · intro _
    by_cases h : p ∈ fs
    · have h1 : deleteFile fs p none = (fs.erase p, false) := by
        unfold deleteFile fsUnlink; simp [h]
      rw [h1]
      refine ⟨Finset.not_mem_erase p fs, ?_⟩
      unfold deleteFile fsUnlink
      simp [Finset.not_mem_erase p fs]
    · have h1 : deleteFile fs p none = (fs, false) := by
        unfold deleteFile fsUnlink; simp [h]
      rw [h1]
      refine ⟨h, ?_⟩
      unfold deleteFile fsUnlink
      simp [h]
  · intro h
    unfold deleteFile fsUnlink
    simp [h]

/-- Witness for `deleteFile_idempotent_silent`, on a one-file filesystem. -/
theorem deleteFile_idempotent_silent_witness :
    (deleteFile {"a"} "a" none).2 = false
    ∧ "a" ∉ (deleteFile {"a"} "a" none).1
    ∧ deleteFile {"a"} "b" none = ({"a"}, false) :=
  ⟨(deleteFile_idempotent_silent {"a"} "a" none).1,
   ((deleteFile_idempotent_silent {"a"} "a" none).2.1 rfl).1,
   (deleteFile_idempotent_silent {"a"} "b" none).2.2 (by decide)⟩

/-- Claim C9: when no notification channel is configured, the large-upload
handler returns the configuration-error text immediately and schedules no
background work at all. -/
theorem uploadLargeMedia_requires_notification_config (c : NotifConfig)
    (url p : Option String) (h : isNotificationConfigured c = false) :
    handleUploadLargeMediaFront c url p
      = ("Error: Notification system (OneBot/Telegram) must be configured in the MCP server's environment variables to use this tool.", false) := by
  unfold handleUploadLargeMediaFront
  rw [h]
  rfl

/-- Witness for `uploadLargeMedia_requires_notification_config`: the empty
configuration. -/
theorem uploadLargeMedia_requires_notification_config_witness :
    handleUploadLargeMediaFront ⟨none, none, none, none, none⟩ (some "https://x") none
      = ("Error: Notification system (OneBot/Telegram) must be configured in the MCP server's environment variables to use this tool.", false) :=
  uploadLargeMedia_requires_notification_config ⟨none, none, none, none, none⟩
    (some "https://x") none (by decide)

/-!
## The polling loop (src/tools/uploadLargeMedia.ts, `pollFileStatusAndNotify`)

The remote store's answers are an input: `resp n` is what the `getStatus`
call of attempt `n` (1-based) produces — either a response carrying an
optional `state` and an optional `updateTime`, or a transport-level error.

Each entry of the returned `notifications` list is one message handed to
the notification channels (the source sends every message through both
`sendOneBotNotification` and `sendTelegramNotification`; that pair of calls
is one dispatcher invocation with one message).
-/

/-- The remote file states distinguished by the source (`state` field). -/
inductive FileState
  | processing
  | active
  | failed
  | stateUnspecified
  | other (s : String)
deriving DecidableEq, Repr

/-- One `getStatus` attempt's result as observed by the polling loop. -/
inductive PollResponse
  | ok (state : Option FileState) (updateTime : Option String)
  | transportError
deriving DecidableEq, Repr

/-- How the polling loop terminates. -/
inductive PollOutcome
  | success       -- returned normally after seeing `ACTIVE`
  | timedOutError -- threw the "Polling timed out" error
  | fellThrough   -- the `while` guard failed (only possible when `maxAttempts = 0`)
deriving DecidableEq, Repr

/-- Result of a run of the polling loop: its final outcome and the ordered
list of messages dispatched to the notification channels. -/
structure PollResult where
  outcome : PollOutcome
  notifications : List String
deriving Repr

/-- Models `new Date(t).toLocaleString()`. The concrete locale rendering is
irrelevant to every property below, so it is modelled as the identity on
the timestamp string. -/
def toLocaleString (t : String) : String := t

/-- `apiUpdateTime ? new Date(apiUpdateTime).toLocaleString() : 'N/A'`. -/
def formatTimeOpt (t : Option String) : String :=
  if truthy t then toLocaleString (t.getD "") else "N/A"

/-- The success notification text (source line building `notificationMessage`). -/
def successMessage (originalSource fullUri mimeType successTime : String) : String :=
  "✅ Large file ready:\nOriginal: `" ++ originalSource ++ "`\nURI: `" ++ fullUri
    ++ "`\nMIME Type: `" ++ mimeType ++ "`\nReady At: `" ++ successTime ++ "`"

/-- The failure notification text (source line building `failureMessage`). -/
def failureMessage (originalSource fullUri mimeType failureTime : String) : String :=
  "❌ Large file processing failed:\nOriginal: `" ++ originalSource ++ "`\nURI: `" ++ fullUri
    ++ "`\nMIME Type: `" ++ mimeType ++ "`\nFailed At: `" ++ failureTime ++ "`"

/-- The timeout notification text (source line building `timeoutMessage`).
Note: unlike the other two, it carries no timestamp field. -/
def timeoutMessage (originalSource fullUri mimeType : String) : String :=
  "⏳ Polling timed out for large file:\nOriginal: `" ++ originalSource ++ "`\nURI: `" ++ fullUri
    ++ "`\nMIME Type: `" ++ mimeType ++ "`"

/-- `MAX_FILE_POLLING_ATTEMPTS` from the source. -/
def MAX_FILE_POLLING_ATTEMPTS : Nat := 90

/-- One-to-one embedding of the `while (attempts < MAX_FILE_POLLING_ATTEMPTS)`
loop body. `fuel = maxAttempts - attempts` makes the recursion structural.

Branches, following the source exactly:
* response with `state === 'ACTIVE'`: dispatch the success message and
  `return` (the only normal exit);
* response with `state === 'FAILED'`: dispatch the failure message, then
  `throw` — but that `throw` sits inside the same `try` block, so the
  loop's own `catch (pollError)` swallows it and execution continues to
  the timeout check and the next attempt;
* any other state (`PROCESSING`, `STATE_UNSPECIFIED`, missing, unexpected):
  log and continue;
* transport error from `getStatus`: caught, logged, and continue.
After the `try`/`catch`, when `attempts >= maxAttempts`, dispatch the
timeout message and throw the "Polling timed out" error. -/
def pollGo (resp : Nat → PollResponse) (originalSource fullUri mimeType : String)
    (maxAttempts : Nat) :
    Nat → Nat → Option String → List String → PollResult
  | 0, _attempts, _lastUpd, msgs => ⟨.fellThrough, msgs⟩
  | fuel + 1, attempts, lastUpd, msgs =>
    let att := attempts + 1
    match resp att with
    | .ok st upd =>
      match st with
      | some .active =>
        ⟨.success, msgs ++ [successMessage originalSource fullUri mimeType (formatTimeOpt upd)]⟩
      | some .failed =>
        let msgs2 := msgs ++ [failureMessage originalSource fullUri mimeType (formatTimeOpt upd)]
        if att ≥ maxAttempts then
          ⟨.timedOutError, msgs2 ++ [timeoutMessage originalSource fullUri mimeType]⟩
        else
          pollGo resp originalSource fullUri mimeType maxAttempts fuel att upd msgs2
      | _ =>
        if att ≥ maxAttempts then
          ⟨.timedOutError, msgs ++ [timeoutMessage originalSource fullUri mimeType]⟩
        else
          pollGo resp originalSource fullUri mimeType maxAttempts fuel att upd msgs
    | .transportError =>
      if att ≥ maxAttempts then
        ⟨.timedOutError, msgs ++ [timeoutMessage originalSource fullUri mimeType]⟩
      else
        pollGo resp originalSource fullUri mimeType maxAttempts fuel att lastUpd msgs

/-- `pollFileStatusAndNotify` from src/tools/uploadLargeMedia.ts, as a run
of the loop from `attempts = 0` with no captured `apiUpdateTime` and no
dispatched notifications. (`fileName` only feeds logging and the polling
URL in the source.) -/
def pollFileStatusAndNotify (resp : Nat → PollResponse)
    (fileName fullUri mimeType originalSource : String) : PollResult :=
  pollGo resp originalSource fullUri mimeType
    MAX_FILE_POLLING_ATTEMPTS MAX_FILE_POLLING_ATTEMPTS 0 none []

/-- The three notification shapes the polling loop can dispatch: the claim
C2 field sets. Success and failure messages embed a formatted timestamp
(`"N/A"` when the remote supplied none); the timeout message embeds only
the source, URI and MIME fields. -/
def goodMsg (originalSource fullUri mimeType msg : String) : Prop :=
  (∃ t, msg = successMessage originalSource fullUri mimeType (formatTimeOpt t))
  ∨ (∃ t, msg = failureMessage originalSource fullUri mimeType (formatTimeOpt t))
  ∨ msg = timeoutMessage originalSource fullUri mimeType

lemma goodMsg_snoc {o u m : String} {msgs : List String} {y : String}
    (hinv : ∀ x ∈ msgs, goodMsg o u m x) (hy : goodMsg o u m y) :
    ∀ x ∈ msgs ++ [y], goodMsg o u m x := by
  intro x hx
  rcases List.mem_append.mp hx with h | h
  · exact hinv x h
  · rw [List.mem_singleton.mp h]
    exact hy

lemma pollGo_messages_shape (resp : Nat → PollResponse) (o u m : String) (maxA : Nat) :
    ∀ fuel attempts lastUpd msgs,
      (∀ x ∈ msgs, goodMsg o u m x) →
      ∀ x ∈ (pollGo resp o u m maxA fuel attempts lastUpd msgs).notifications,
        goodMsg o u m x := by
  intro fuel
  induction fuel with
  | zero =>
    intro attempts lastUpd msgs hinv x hx
    exact hinv x hx
  | succ fuel ih =>
    intro attempts lastUpd msgs hinv x hx
    rw [pollGo] at hx
    cases hresp : resp (attempts + 1) with
    | ok st upd =>
      rw [hresp] at hx
      match st with
      | some .active =>
        simp only at hx
        exact goodMsg_snoc hinv (.inl ⟨upd, rfl⟩) x hx
      | some .failed =>
        simp only at hx
        split at hx
        · exact goodMsg_snoc (goodMsg_snoc hinv (.inr (.inl ⟨upd, rfl⟩))) (.inr (.inr rfl)) x hx
        · exact ih _ _ _ (goodMsg_snoc hinv (.inr (.inl ⟨upd, rfl⟩))) x hx
      | some .processing =>
        simp only at hx
        split at hx
        · exact goodMsg_snoc hinv (.inr (.inr rfl)) x hx
        · exact ih _ _ _ hinv x hx
      | some .stateUnspecified =>
        simp only at hx
        split at hx
        · exact goodMsg_snoc hinv (.inr (.inr rfl)) x hx
        · exact ih _ _ _ hinv x hx
      | some (.other s) =>
        simp only at hx
        split at hx
        · exact goodMsg_snoc hinv (.inr (.inr rfl)) x hx
        · exact ih _ _ _ hinv x hx
      | none =>
        simp only at hx
        split at hx
        · exact goodMsg_snoc hinv (.inr (.inr rfl)) x hx
        · exact ih _ _ _ hinv x hx
    | transportError =>
      rw [hresp] at hx
      simp only at hx
      split at hx
      · exact goodMsg_snoc hinv (.inr (.inr rfl)) x hx
      · exact ih _ _ _ hinv x hx

/-- Claim C1 (code bug): with the remote reporting `FAILED` on every
attempt, the polling loop dispatches 91 notification messages (one failure
message per attempt, plus a final timeout message) instead of exactly one,
because the `FAILED` branch's terminating `throw` is swallowed by the
loop's own `catch`. With `ACTIVE` it does dispatch exactly one. -/
theorem pollLoop_failed_state_notification_count :
    ((pollFileStatusAndNotify (fun _ => PollResponse.ok (some FileState.failed) (some "T"))
        "f" "u" "m" "s").notifications).length = 91
    ∧ ((pollFileStatusAndNotify (fun _ => PollResponse.ok (some FileState.active) (some "T"))
        "f" "u" "m" "s").notifications).length = 1 := by
  decide

/-- Claim C2 counterexample: a run that times out dispatches exactly the
timeout message, and that message embeds no timestamp field — in
particular not the "N/A" placeholder the claim requires when the remote
supplied no `updateTime` — while the success and failure messages do. -/
theorem timeout_notification_lacks_timestamp :
    (pollFileStatusAndNotify (fun _ => PollResponse.ok (some FileState.processing) none)
        "f" "u" "m" "s").notifications = [timeoutMessage "s" "u" "m"]
    ∧ strContainsSub (timeoutMessage "s" "u" "m") "N/A" = false
    ∧ strContainsSub (successMessage "s" "u" "m" (formatTimeOpt none)) "N/A" = true
    ∧ strContainsSub (failureMessage "s" "u" "m" (formatTimeOpt none)) "N/A" = true := by
  decide

/-- Claim C2 (amended): every message the polling loop dispatches is one of
the three fixed shapes built from the loop's own source description, URI
and MIME type: the success and failure messages additionally embed a
human-readable timestamp ("N/A" when the remote supplied none); the
timeout message embeds only the three common fields and no timestamp. -/
theorem poll_notification_field_sets (resp : Nat → PollResponse)
    (fileName fullUri mimeType originalSource : String) :
    ∀ msg ∈ (pollFileStatusAndNotify resp fileName fullUri mimeType originalSource).notifications,
      goodMsg originalSource fullUri mimeType msg :=
  pollGo_messages_shape resp originalSource fullUri mimeType
    MAX_FILE_POLLING_ATTEMPTS MAX_FILE_POLLING_ATTEMPTS 0 none []
    (fun x hx => absurd hx (List.not_mem_nil x))

/-- Witness for `poll_notification_field_sets`: the timeout message of an
all-`PROCESSING` run is among the dispatched messages and has one of the
three shapes. -/
theorem poll_notification_field_sets_witness :
    timeoutMessage "s" "u" "m"
        ∈ (pollFileStatusAndNotify (fun _ => PollResponse.ok (some FileState.processing) none)
            "f" "u" "m" "s").notifications
    ∧ goodMsg "s" "u" "m" (timeoutMessage "s" "u" "m") := by
  have hm : timeoutMessage "s" "u" "m"
      ∈ (pollFileStatusAndNotify (fun _ => PollResponse.ok (some FileState.processing) none)
          "f" "u" "m" "s").notifications := by decide
  exact ⟨hm,
    poll_notification_field_sets (fun _ => PollResponse.ok (some FileState.processing) none)
      "f" "u" "m" "s" (timeoutMessage "s" "u" "m") hm⟩

/-- Claim C5 (code bug): observing the terminal state `FAILED` at attempt 1
does not stop the loop — it still reports the timeout failure (with a
timeout notification) after exhausting all attempts, contradicting "a
timeout failure only when no terminal state was observed". The true parts
of the claim also evaluate as stated: transport errors on single attempts
are retried, and non-terminal states continue polling until `ACTIVE`. -/
theorem poll_timeout_despite_failed_state :
    (pollFileStatusAndNotify
        (fun n => if n = 1 then PollResponse.ok (some FileState.failed) none
                  else PollResponse.ok (some FileState.processing) none)
        "f" "u" "m" "s").outcome = PollOutcome.timedOutError
    ∧ (pollFileStatusAndNotify
        (fun n => if n = 1 then PollResponse.ok (some FileState.failed) none
                  else PollResponse.ok (some FileState.processing) none)
        "f" "u" "m" "s").notifications
        = [failureMessage "s" "u" "m" "N/A", timeoutMessage "s" "u" "m"]
    ∧ (pollFileStatusAndNotify
        (fun n => if n ≤ 4 then PollResponse.transportError
                  else PollResponse.ok (some FileState.active) (some "T"))
        "f" "u" "m" "s").outcome = PollOutcome.success
    ∧ (pollFileStatusAndNotify
        (fun n => if n ≤ 4 then PollResponse.transportError
                  else PollResponse.ok (some FileState.active) (some "T"))
        "f" "u" "m" "s").notifications = [successMessage "s" "u" "m" "T"] := by
  decide

/-!
## Media-understanding pipeline (src/tools/understandMedia.ts)

A validated `fileSourceSchema` object paired with the environment the
resolution of that file observes (HEAD probe, download, `mime.lookup`,
`fs.stat`, file bytes). Base64 encoding of the file contents is modelled
by the raw byte list it encodes (`Buffer.toString('base64')` is injective
marshalling); `path.resolve` is modelled as the identity on the
already-absolute paths used here.
-/

/-- The fields of a `fileSourceSchema` object. -/
structure FileSource where
  url : Option String
  path : Option String
  file_uri : Option String
  mime_type : Option String
deriving DecidableEq, Repr

/-- Per-file environment: what the network and filesystem answer during the
resolution of one file. -/
structure FileEnv where
  source : FileSource
  /-- Parsed `Content-Length` of a successful HEAD probe; `none` when the
  HEAD request failed or returned no all-digit `Content-Length` header. -/
  headContentLength : Option Nat
  /-- `Content-Type` of the (successful) download response. -/
  contentType : Option String
  /-- `mime.lookup` on the local file path (`false` mapped to `none`). -/
  lookupMime : Option String
  /-- Whether `path.extname(localFilePath).toLowerCase()` is `".mp3"`. -/
  extIsMp3 : Bool
  /-- `fs.stat(localFilePath).size`. -/
  fileSize : Nat
  /-- The file contents (stands for the base64 payload sent inline). -/
  bytes : List Nat
  /-- Whether `fs.access` succeeds for a local path. -/
  fileExists : Bool
  /-- `downloadResult.filePath` for a downloaded URL source. -/
  downloadedPath : String
deriving DecidableEq, Repr

/-- How one resolved file reaches the Gemini generation call
(`ProcessedFileInfo` in the source). The ordinary understanding flow has
no remote-upload variant: the File API upload path was removed from this
tool, so no upload call to the store client exists on this path. -/
inductive ProcessedFile
  | inline (mimeType : String) (bytesBase64 : List Nat)
  | fileApi (mimeType uri : String)
  | youtube (url : String)
deriving DecidableEq, Repr

/-- `MAX_FILE_SIZE_BYTES` from src/tools/understandMedia.ts. -/
def MAX_FILE_SIZE_BYTES : Nat := 20 * 1024 * 1024

/-- `SUPPORTED_MIME_TYPES` from src/tools/understandMedia.ts. -/
def SUPPORTED_MIME_TYPES : List String :=
  ["video/mp4", "video/mpeg", "video/mov", "video/avi", "video/x-flv",
   "video/mpg", "video/webm", "video/wmv", "video/3gpp",
   "audio/wav", "audio/mp3", "audio/mpeg",
   "audio/aiff", "audio/aac", "audio/ogg", "audio/flac",
   "image/png", "image/jpeg", "image/webp", "image/heic", "image/heif",
   "application/pdf",
   "application/x-javascript", "text/javascript",
   "application/x-python", "text/x-python",
   "text/plain", "text/html", "text/css", "text/markdown", "text/csv",
   "text/xml", "application/xml", "text/rtf", "application/rtf",
   "application/json", "application/javascript",
   "application/x-typescript", "text/typescript",
   "text/x-java-source", "text/java",
   "text/x-c", "text/x-csrc", "text/x-csharp",
   "text/x-php", "application/x-httpd-php",
   "text/x-ruby", "text/x-go", "text/rust", "application/rust",
   "text/swift", "text/kotlin", "text/scala", "text/perl",
   "text/shellscript", "application/x-sh"]

/-- `SUPPORTED_MIME_TYPES.has(m)`. -/
def isSupportedMime (m : String) : Bool :=
  SUPPORTED_MIME_TYPES.contains m

/-- Characters matched by `[a-zA-Z0-9_-]` in the YouTube URL regex. -/
def isYouTubeIdChar (c : Char) : Bool :=
  c.isAlphanum || c == '_' || c == '-'

/-- `YOUTUBE_URL_REGEX.test(u)` for the source pattern
`^(https?://)?(www\.)?(youtube\.com/watch?v=|youtu\.be/)([a-zA-Z0-9_-]{11})`:
an optional scheme, an optional `www.`, one of the two host/path prefixes,
then at least eleven id characters. -/
def isYouTubeUrl (u : String) : Bool :=
  let s0 := u.data
  let s1 :=
    if "https://".data.isPrefixOf s0 then s0.drop 8
    else if "http://".data.isPrefixOf s0 then s0.drop 7
    else s0
  let s2 := if "www.".data.isPrefixOf s1 then s1.drop 4 else s1
  let rest :=
    if "youtube.com/watch?v=".data.isPrefixOf s2 then some (s2.drop 20)
    else if "youtu.be/".data.isPrefixOf s2 then some (s2.drop 9)
    else none
  match rest with
  | none => false
  | some r => decide (r.length ≥ 11) && (r.take 11).all isYouTubeIdChar

/-- The `.mp3`/`audio/mpeg` correction applied after MIME determination. -/
def mp3Fix (extIsMp3 : Bool) (m : String) : String :=
  if extIsMp3 && m == "audio/mpeg" then "audio/mp3" else m

/-- `fileSource.url || fileSource.path || fileSource.file_uri ||
`unknown_file_${index}``. -/
def originalSourceOf (f : FileSource) (index : Nat) : String :=
  if truthy f.url then f.url.getD ""
  else if truthy f.path then f.path.getD ""
  else if truthy f.file_uri then f.file_uri.getD ""
  else "unknown_file_" ++ toString index

/-- Error text for an oversized URL source detected by the HEAD probe. -/
def urlTooLargeHeadMsg (orig : String) (n : Nat) : String :=
  "File from URL '" ++ orig ++ "' is too large (" ++ toString n ++ " bytes > "
    ++ toString MAX_FILE_SIZE_BYTES
    ++ " bytes based on Content-Length). Please use the 'uploadLargeMedia' tool for files larger than 20MB."

/-- Error text for an oversized URL source detected after download. -/
def urlTooLargePostMsg (orig : String) (n : Nat) : String :=
  "File from URL '" ++ orig ++ "' is too large (" ++ toString n ++ " bytes > "
    ++ toString MAX_FILE_SIZE_BYTES
    ++ " bytes). Please use the 'uploadLargeMedia' tool for files larger than 20MB."

/-- Error text for an oversized local file. -/
def localTooLargeMsg (orig : String) (n : Nat) : String :=
  "Local file '" ++ orig ++ "' is too large (" ++ toString n ++ " bytes > "
    ++ toString MAX_FILE_SIZE_BYTES
    ++ " bytes). Please use the 'uploadLargeMedia' tool for files larger than 20MB."

/-- Error text thrown when a second video is counted during processing. -/
def multipleVideosMsg : String :=
  "Invalid request: Only one video file can be processed per request. Multiple video files detected after processing."

/-- The MIME type a downloaded URL source resolves to before validation:
the download's `Content-Type` header when truthy, otherwise the
`mime.lookup` fallback; `none` when neither is usable. -/
def urlRawMime (env : FileEnv) : Option String :=
  if truthy env.contentType then env.contentType else env.lookupMime

/-- The final MIME type of a downloaded URL source (after the mp3 fix). -/
def urlFinalMime (env : FileEnv) : String :=
  mp3Fix env.extIsMp3 ((urlRawMime env).getD "")

/-- The final MIME type of a local-path source (after the mp3 fix). -/
def pathFinalMime (env : FileEnv) : String :=
  mp3Fix env.extIsMp3 (env.lookupMime.getD "")

/-- The shared tail of the URL branch, after the download: determine and
validate the MIME type, count videos, check emptiness and the size
threshold, then produce the inline part (source lines after `downloadFile`). -/
def processDownloadedUrl (env : FileEnv) (orig : String) (videoCount : Nat) :
    Except String (ProcessedFile × Nat) :=
  if !(truthy (urlRawMime env)) then
    .error ("Could not determine MIME type for downloaded file (header missing and lookup failed): "
      ++ env.downloadedPath)
  else
    let m := urlFinalMime env
    if !(isSupportedMime m) then
      .error ("Unsupported file type '" ++ m ++ "' for source URL: " ++ orig ++ ".")
    else
      let vc := if strStartsWith m "video/" then videoCount + 1 else videoCount
      if strStartsWith m "video/" && decide (vc > 1) then .error multipleVideosMsg
      else if env.fileSize == 0 then
        .error ("Downloaded file is empty: " ++ env.downloadedPath)
      else if decide (env.fileSize > MAX_FILE_SIZE_BYTES) then
        .error (urlTooLargePostMsg orig env.fileSize)
      else
        .ok (.inline m env.bytes, vc)

/-- The local-path branch: `fs.access`, `mime.lookup`, mp3 fix, allow-list
check, video count, `fs.stat` emptiness and size checks, inline part. -/
def processLocalPath (env : FileEnv) (orig : String) (videoCount : Nat) :
    Except String (ProcessedFile × Nat) :=
  if !env.fileExists then
    .error ("ENOENT: no such file or directory, access '" ++ (env.source.path.getD "") ++ "'")
  else if !(truthy env.lookupMime) then
    .error ("Could not determine MIME type for local file: " ++ (env.source.path.getD ""))
  else
    let m := pathFinalMime env
    if !(isSupportedMime m) then
      .error ("Unsupported file type '" ++ m ++ "' for source path: " ++ orig ++ ".")
    else
      let vc := if strStartsWith m "video/" then videoCount + 1 else videoCount
      if strStartsWith m "video/" && decide (vc > 1) then .error multipleVideosMsg
      else if env.fileSize == 0 then
        .error ("File is empty: " ++ (env.source.path.getD ""))
      else if decide (env.fileSize > MAX_FILE_SIZE_BYTES) then
        .error (localTooLargeMsg orig env.fileSize)
      else
        .ok (.inline m env.bytes, vc)

/-- Resolution of one file of the request (`files.map` body in
`handleUnderstandMedia`), threading the shared `videoCount`. -/
def processOneFile (env : FileEnv) (index videoCount : Nat) :
    Except String (ProcessedFile × Nat) :=
  let f := env.source
  let orig := originalSourceOf f index
  if truthy f.file_uri && truthy f.mime_type then
    let m := f.mime_type.getD ""
    if !(isSupportedMime m) then
      .error ("Unsupported MIME type '" ++ m ++ "' for pre-uploaded file: " ++ orig ++ ".")
    else
      .ok (.fileApi m (f.file_uri.getD ""), videoCount)
  else if truthy f.url then
    let u := f.url.getD ""
    if isYouTubeUrl u then
      .ok (.youtube u, videoCount)
    else
      match env.headContentLength with
      | some n =>
        if decide (n > MAX_FILE_SIZE_BYTES) then .error (urlTooLargeHeadMsg orig n)
        else processDownloadedUrl env orig videoCount
      | none => processDownloadedUrl env orig videoCount
  else if truthy f.path then
    processLocalPath env orig videoCount
  else
    .error "Invalid file source object, missing url, path, or file_uri/mime_type"

/-- The pre-check video count (source lines 170-181): YouTube URLs and
pre-uploaded sources whose declared MIME type starts with `video/`. -/
def precheckVideoCount (files : List FileEnv) : Nat :=
  files.foldl
    (fun acc env =>
      if truthy env.source.url && isYouTubeUrl (env.source.url.getD "") then acc + 1
      else if strStartsWith (env.source.mime_type.getD "") "video/" then acc + 1
      else acc)
    0

/-- Sequentialized resolution of all files of the request (the source runs
the `files.map` promises concurrently on one event loop with the shared
`videoCount`; acceptance and counts are interleaving-independent, so the
left-to-right order is a faithful linearization). Any single failure fails
the whole request (`Promise.all`). -/
def processFiles : List FileEnv → Nat → Nat → Except String (List ProcessedFile × Nat)
  | [], videoCount, _index => .ok ([], videoCount)
  | env :: rest, videoCount, index =>
    match processOneFile env index videoCount with
    | .error e => .error e
    | .ok (pf, vc2) =>
      match processFiles rest vc2 (index + 1) with
      | .error e => .error e
      | .ok (pfs, vcF) => .ok (pf :: pfs, vcF)

/-- The file-processing phase of `handleUnderstandMedia`: the video
pre-check (after which the counter is reset to 0), then the per-file
resolutions. An `ok` result is the list of parts handed to the Gemini
generation call; an `error` result never reaches that call. -/
def handleUnderstandMediaFiles (files : List FileEnv) : Except String (List ProcessedFile) :=
  if decide (precheckVideoCount files > 1) then
    .error "Invalid request: Only one video file (including YouTube URLs or video MIME types) can be processed per request."
  else
    match processFiles files 0 0 with
    | .error e => .error e
    | .ok (pfs, _) => .ok pfs

/-!
## Validation schemas and the call-dispatch gate
(src/tools/understandMedia.ts, src/tools/uploadLargeMedia.ts, index dispatch)
-/

/-- The `refine` predicate of `fileSourceSchema`: exactly one truthy source
among `url`, `path`, `file_uri`, and a truthy `mime_type` whenever
`file_uri` is given. -/
def fileSourceRefine (f : FileSource) : Bool :=
  let sources := ([f.url, f.path, f.file_uri].filter truthy).length
  if sources ≠ 1 then false
  else if truthy f.file_uri && !(truthy f.mime_type) then false
  else true

/-- The `refine` predicate of `uploadLargeMediaSchema`: exactly one truthy
source among `url` and `path`. -/
def uploadLargeMediaRefine (url p : Option String) : Bool :=
  ([url, p].filter truthy).length == 1

/-- `understandMediaSchema.safeParse` success on already-typed fields:
a nonempty `text`, at least one file, and every file passing its refine. -/
def understandMediaValidate (text : String) (files : List FileSource) : Bool :=
  !text.isEmpty && !files.isEmpty && files.all fileSourceRefine

/-- Result of the CallTool dispatch for one tool: either the
`McpError(InvalidParams)` thrown before the tool handler runs (so no byte
transfer of any kind happens), or the invocation of the handler with the
validated arguments. -/
inductive ToolDispatch (α : Type)
  | invalidParams
  | handlerInvoked (args : α)
deriving DecidableEq, Repr

/-- The dispatch gate for `gemini_understand_media` (index.ts: `safeParse`
with the refined schema; on failure an `McpError` is thrown and
`handleUnderstandMedia` is never called). -/
def dispatchUnderstandMedia (text : String) (files : List FileSource) :
    ToolDispatch (String × List FileSource) :=
  if understandMediaValidate text files then .handlerInvoked (text, files)
  else .invalidParams

/-- The dispatch gate for `gemini_upload_large_media`. -/
def dispatchUploadLargeMedia (url p : Option String) :
    ToolDispatch (Option String × Option String) :=
  if uploadLargeMediaRefine url p then .handlerInvoked (url, p)
  else .invalidParams

/-!
## Resumable-upload data phase (src/tools/uploadLargeMedia.ts,
`uploadFileToGoogleApi`, step 2)
-/

/-- The response-acceptance logic of the data-transfer request: the source
throws when `uploadResponse.status !== 200 || !responseData?.file?.uri ||
!responseData?.file?.name`, and otherwise returns `{ name, uri }`.
`name`/`uri` are `none` when the `file` object or the field is missing;
truthiness also rejects empty strings. (The stringified response body in
the source's error text is omitted.) -/
def uploadDataPhase (status : Nat) (name uri : Option String) :
    Except String (String × String) :=
  if status != 200 || !(truthy uri) || !(truthy name) then
    .error ("Direct file upload to Google failed with status " ++ toString status ++ ".")
  else
    .ok (name.getD "", uri.getD "")

/-- The failure condition claim C4 states, formalized from the spec's own
words: the response "lacks both `name` and `uri`, or returns a non-success
status". -/
def specSendBytesFails (status : Nat) (name uri : Option String) : Bool :=
  (!(truthy name) && !(truthy uri)) || !(decide (200 ≤ status) && decide (status < 300))

/-!
## Theorems: C3, C4, C6, C10
-/

/-- A 0-byte local PNG used to probe the size-threshold claim. -/
def emptyPngEnv : FileEnv :=
  ⟨⟨none, some "/tmp/cat.png", none, none⟩, none, none, some "image/png", false, 0, [], true, ""⟩

/-- Claim C3 counterexample: a fully valid local PNG of size 0 — which is
at most the threshold — does not resolve to an Inline plan; it fails with
the empty-file error. -/
theorem empty_file_below_threshold_not_inline :
    handleUnderstandMediaFiles [emptyPngEnv] = Except.error "File is empty: /tmp/cat.png"
    ∧ emptyPngEnv.fileSize ≤ MAX_FILE_SIZE_BYTES := by
  decide

/-- Claim C3 (amended): on the ordinary understanding flow with the fixed
20 MB threshold, an otherwise-valid URL or local-path source of size in
(0, threshold] always resolves to the Inline plan carrying its bytes and
final MIME type; a source of size above the threshold always fails with
the size-limit error directing to the `uploadLargeMedia` tool (for URLs,
either at the HEAD probe or after the download); size 0 fails with the
empty-file error instead (see the counterexample). The flow contains no
call to the remote object store, so no upload happens on any branch. -/
theorem size_threshold_dispatch (env : FileEnv) (index videoCount : Nat) :
    (∀ u, truthy env.source.file_uri = false →
      env.source.url = some u → truthy (some u) = true → isYouTubeUrl u = false →
      (env.headContentLength = none ∨ env.headContentLength = some env.fileSize) →
      truthy (urlRawMime env) = true →
      isSupportedMime (urlFinalMime env) = true →
      (strStartsWith (urlFinalMime env) "video/" = true → videoCount = 0) →
      ((0 < env.fileSize ∧ env.fileSize ≤ MAX_FILE_SIZE_BYTES →
          processOneFile env index videoCount
            = Except.ok (ProcessedFile.inline (urlFinalMime env) env.bytes,
                if strStartsWith (urlFinalMime env) "video/" then videoCount + 1 else videoCount))
        ∧ (MAX_FILE_SIZE_BYTES < env.fileSize →
            processOneFile env index videoCount
                = Except.error (urlTooLargeHeadMsg (originalSourceOf env.source index) env.fileSize)
              ∨ processOneFile env index videoCount
                = Except.error (urlTooLargePostMsg (originalSourceOf env.source index) env.fileSize))))
    ∧ (∀ p, truthy env.source.file_uri = false → truthy env.source.url = false →
      env.source.path = some p → truthy (some p) = true →
      env.fileExists = true →
      truthy env.lookupMime = true →
      isSupportedMime (pathFinalMime env) = true →
      (strStartsWith (pathFinalMime env) "video/" = true → videoCount = 0) →
      ((0 < env.fileSize ∧ env.fileSize ≤ MAX_FILE_SIZE_BYTES →
          processOneFile env index videoCount
            = Except.ok (ProcessedFile.inline (pathFinalMime env) env.bytes,
                if strStartsWith (pathFinalMime env) "video/" then videoCount + 1 else videoCount))
        ∧ (MAX_FILE_SIZE_BYTES < env.fileSize →
            processOneFile env index videoCount
              = Except.error (localTooLargeMsg (originalSourceOf env.source index) env.fileSize)))) := by
  have hMpos : 0 < MAX_FILE_SIZE_BYTES := by decide
  constructor
  · intro u hfu hurl hu hyt hhead hraw hsupp hvid
    have hnotA : (truthy env.source.file_uri && truthy env.source.mime_type) = false := by
      rw [hfu]; rfl
    have hvc : (strStartsWith (urlFinalMime env) "video/"
        && decide ((if strStartsWith (urlFinalMime env) "video/" then videoCount + 1 else videoCount) > 1)) = false := by
      by_cases hv : strStartsWith (urlFinalMime env) "video/" = true
      · rw [hvid hv]
        simp [hv]
      · simp only [Bool.not_eq_true] at hv
        simp [hv]
    constructor
    · rintro ⟨hpos, hle⟩
      have hnz : ¬(env.fileSize = 0) := by omega
      have hgt : ¬(MAX_FILE_SIZE_BYTES < env.fileSize) := by omega
      rcases hhead with hh | hh <;>
        · unfold processOneFile processDownloadedUrl
          simp [hnotA, hurl, hu, hyt, hh, hraw, hsupp, hvc, hnz, hgt]
    · intro hbig
      have hnz : ¬(env.fileSize = 0) := by omega
      rcases hhead with hh | hh
      · refine Or.inr ?_
        unfold processOneFile processDownloadedUrl
        simp [hnotA, hurl, hu, hyt, hh, hraw, hsupp, hvc, hnz, hbig]
      · refine Or.inl ?_
        unfold processOneFile
        simp [hnotA, hurl, hu, hyt, hh, hbig]
  · intro p hfu hurl hpath hp hex hlk hsupp hvid
    have hnotA : (truthy env.source.file_uri && truthy env.source.mime_type) = false := by
      rw [hfu]; rfl
    have hvc : (strStartsWith (pathFinalMime env) "video/"
        && decide ((if strStartsWith (pathFinalMime env) "video/" then videoCount + 1 else videoCount) > 1)) = false := by
      by_cases hv : strStartsWith (pathFinalMime env) "video/" = true
      · rw [hvid hv]
        simp [hv]
      · simp only [Bool.not_eq_true] at hv
        simp [hv]
    constructor
    · rintro ⟨hpos, hle⟩
      have hnz : ¬(env.fileSize = 0) := by omega
      have hgt : ¬(MAX_FILE_SIZE_BYTES < env.fileSize) := by omega
      unfold processOneFile processLocalPath
      simp [hnotA, hurl, hpath, hp, hex, hlk, hsupp, hvc, hnz, hgt]
    · intro hbig
      have hnz : ¬(env.fileSize = 0) := by omega
      unfold processOneFile processLocalPath
      simp [hnotA, hurl, hpath, hp, hex, hlk, hsupp, hvc, hnz, hbig]

/-- A valid 2-byte local PNG used as the witness input. -/
def smallPngEnv : FileEnv :=
  ⟨⟨none, some "/tmp/cat.png", none, none⟩, none, none, some "image/png", false, 2048,
    [137, 80], true, ""⟩

/-- Witness for `size_threshold_dispatch`: a 2048-byte local PNG resolves
to the Inline plan. -/
theorem size_threshold_dispatch_witness :
    processOneFile smallPngEnv 0 0
      = Except.ok (ProcessedFile.inline "image/png" [137, 80], 0) := by
  have h := ((size_threshold_dispatch smallPngEnv 0 0).2 "/tmp/cat.png"
    rfl rfl rfl rfl rfl rfl (by decide) (by intro h; cases h)).1 ⟨by decide, by decide⟩
  simpa using h

/-- Claim C4 counterexample: a 200 response carrying `name` but no `uri`
is rejected by the code, though the claim accepts any success response
carrying either field; and a 201 response carrying both fields is likewise
rejected, though 201 is a success status. -/
theorem sendBytes_single_field_rejected :
    exceptIsOk (uploadDataPhase 200 (some "files/abc") none) = false
    ∧ specSendBytesFails 200 (some "files/abc") none = false
    ∧ exceptIsOk (uploadDataPhase 201 (some "files/abc")
        (some "https://generativelanguage.googleapis.com/v1beta/files/abc")) = false
    ∧ specSendBytesFails 201 (some "files/abc")
        (some "https://generativelanguage.googleapis.com/v1beta/files/abc") = false := by
  decide

/-- Claim C4 (amended): the data-transfer phase fails if and only if the
status is not exactly 200, or the response lacks (a truthy) `name`, or
lacks (a truthy) `uri`; in particular a 200 response carrying both fields
is accepted. -/
theorem sendBytes_failure_iff (status : Nat) (name uri : Option String) :
    exceptIsOk (uploadDataPhase status name uri) = false
      ↔ (status ≠ 200 ∨ truthy name = false ∨ truthy uri = false) := by
  by_cases h1 : status = 200 <;> by_cases h2 : truthy name = true <;>
    by_cases h3 : truthy uri = true <;>
    simp [uploadDataPhase, exceptIsOk, h1, h2, h3]

/-- Claim C6: any file-source object with zero or more than one truthy
source variant — or a remote handle without its companion MIME type — makes
schema validation fail, so the dispatch throws `InvalidParams` and the
handler (hence any byte transfer) is never reached; same for the
large-upload tool's two-variant schema. -/
theorem exactly_one_source_validation :
    (∀ (text : String) (files : List FileSource) (f : FileSource),
      f ∈ files →
      (([f.url, f.path, f.file_uri].filter truthy).length ≠ 1
        ∨ (truthy f.file_uri = true ∧ truthy f.mime_type = false)) →
      dispatchUnderstandMedia text files = ToolDispatch.invalidParams)
    ∧ (∀ url p, ([url, p].filter truthy).length ≠ 1 →
        dispatchUploadLargeMedia url p = ToolDispatch.invalidParams) := by
  constructor
  · intro text files f hmem h
    have hf : fileSourceRefine f = false := by
      unfold fileSourceRefine
      rcases h with h | ⟨h1, h2⟩
      · simp [h]
      · by_cases hc : ([f.url, f.path, f.file_uri].filter truthy).length = 1
        · simp [hc, h1, h2]
        · simp [hc]
    have hall : files.all fileSourceRefine = false := by
      by_contra hne
      rw [Bool.not_eq_false] at hne
      have := List.all_eq_true.mp hne f hmem
      rw [hf] at this
      cases this
    have hv : understandMediaValidate text files = false := by
      unfold understandMediaValidate
      rw [hall]
      simp
    unfold dispatchUnderstandMedia
    rw [hv]
    rfl
  · intro url p h
    have hr : uploadLargeMediaRefine url p = false := by
      unfold uploadLargeMediaRefine
      simp [h]
    unfold dispatchUploadLargeMedia
    rw [hr]
    rfl

/-- Witness for `exactly_one_source_validation`: the all-absent file source
and the all-absent large-upload arguments are both rejected. -/
theorem exactly_one_source_validation_witness :
    dispatchUnderstandMedia "hi" [⟨none, none, none, none⟩] = ToolDispatch.invalidParams
    ∧ dispatchUploadLargeMedia none none = ToolDispatch.invalidParams :=
  ⟨exactly_one_source_validation.1 "hi" [⟨none, none, none, none⟩] ⟨none, none, none, none⟩
      (by decide) (by decide),
   exactly_one_source_validation.2 none none (by decide)⟩

/-- Whether resolving this file increments the processing-phase video
counter: a non-YouTube URL or a local path whose final resolved MIME type
starts with `video/`. YouTube URLs and pre-uploaded handles never do. -/
def resolvedVideoFlag (env : FileEnv) : Bool :=
  let f := env.source
  if truthy f.file_uri && truthy f.mime_type then false
  else if truthy f.url then
    if isYouTubeUrl (f.url.getD "") then false
    else strStartsWith (urlFinalMime env) "video/"
  else if truthy f.path then strStartsWith (pathFinalMime env) "video/"
  else false

lemma processDownloadedUrl_video_count {env : FileEnv} {orig : String} {vc : Nat}
    {pf : ProcessedFile} {vc2 : Nat}
    (h : processDownloadedUrl env orig vc = .ok (pf, vc2)) :
    (strStartsWith (urlFinalMime env) "video/" = true → vc2 = vc + 1 ∧ vc2 ≤ 1)
    ∧ (strStartsWith (urlFinalMime env) "video/" = false → vc2 = vc) := by
  unfold processDownloadedUrl at h
  by_cases hraw : truthy (urlRawMime env) = true
  case neg =>
    rw [Bool.not_eq_true] at hraw
    simp [hraw] at h
  case pos =>
    by_cases hsupp : isSupportedMime (urlFinalMime env) = true
    case neg =>
      rw [Bool.not_eq_true] at hsupp
      simp [hraw, hsupp] at h
    case pos =>
      by_cases hv : strStartsWith (urlFinalMime env) "video/" = true
      case pos =>
        by_cases hgt : vc + 1 > 1
        case pos =>
          simp [hraw, hsupp, hv, hgt] at h
        case neg =>
          simp [hraw, hsupp, hv, hgt] at h
          refine ⟨fun _ => ?_, fun hc => by rw [hv] at hc; cases hc⟩
          split at h
          · cases h
          · split at h
            · cases h
            · simp only [Except.ok.injEq, Prod.mk.injEq] at h
              exact ⟨h.2.symm, by omega⟩
      case neg =>
        rw [Bool.not_eq_true] at hv
        simp [hraw, hsupp, hv] at h
        refine ⟨fun hc => (by rw [hv] at hc; cases hc), fun _ => ?_⟩
        split at h
        · cases h
        · split at h
          · cases h
          · simp only [Except.ok.injEq, Prod.mk.injEq] at h
            exact h.2.symm

lemma processLocalPath_video_count {env : FileEnv} {orig : String} {vc : Nat}
    {pf : ProcessedFile} {vc2 : Nat}
    (h : processLocalPath env orig vc = .ok (pf, vc2)) :
    (strStartsWith (pathFinalMime env) "video/" = true → vc2 = vc + 1 ∧ vc2 ≤ 1)
    ∧ (strStartsWith (pathFinalMime env) "video/" = false → vc2 = vc) := by
  unfold processLocalPath at h
  by_cases hex : env.fileExists = true
  case neg =>
    rw [Bool.not_eq_true] at hex
    simp [hex] at h
  case pos =>
    by_cases hlk : truthy env.lookupMime = true
    case neg =>
      rw [Bool.not_eq_true] at hlk
      simp [hex, hlk] at h
    case pos =>
      by_cases hsupp : isSupportedMime (pathFinalMime env) = true
      case neg =>
        rw [Bool.not_eq_true] at hsupp
        simp [hex, hlk, hsupp] at h
      case pos =>
        by_cases hv : strStartsWith (pathFinalMime env) "video/" = true
        case pos =>
          by_cases hgt : vc + 1 > 1
          case pos =>
            simp [hex, hlk, hsupp, hv, hgt] at h
          case neg =>
            simp [hex, hlk, hsupp, hv, hgt] at h
            refine ⟨fun _ => ?_, fun hc => by rw [hv] at hc; cases hc⟩
            split at h
            · cases h
            · split at h
              · cases h
              · simp only [Except.ok.injEq, Prod.mk.injEq] at h
                exact ⟨h.2.symm, by omega⟩
        case neg =>
          rw [Bool.not_eq_true] at hv
          simp [hex, hlk, hsupp, hv] at h
          refine ⟨fun hc => (by rw [hv] at hc; cases hc), fun _ => ?_⟩
          split at h
          · cases h
          · split at h
            · cases h
            · simp only [Except.ok.injEq, Prod.mk.injEq] at h
              exact h.2.symm

lemma processOneFile_video_count {env : FileEnv} {index vc : Nat}
    {pf : ProcessedFile} {vc2 : Nat}
    (h : processOneFile env index vc = .ok (pf, vc2)) :
    (resolvedVideoFlag env = true → vc2 = vc + 1 ∧ vc2 ≤ 1)
    ∧ (resolvedVideoFlag env = false → vc2 = vc) := by
  unfold processOneFile at h
  by_cases hA : (truthy env.source.file_uri && truthy env.source.mime_type) = true
  case pos =>
    have hflag : resolvedVideoFlag env = false := by
      unfold resolvedVideoFlag
      simp [hA]
    simp [hA] at h
    split at h
    · cases h
    · simp only [Except.ok.injEq, Prod.mk.injEq] at h
      refine ⟨fun hc => (by rw [hflag] at hc; cases hc), fun _ => h.2.symm⟩
  case neg =>
    have hA' : (truthy env.source.file_uri && truthy env.source.mime_type) = false := by
      rw [Bool.not_eq_true] at hA
      exact hA
    by_cases hu : truthy env.source.url = true
    case pos =>
      by_cases hyt : isYouTubeUrl (env.source.url.getD "") = true
      case pos =>
        have hflag : resolvedVideoFlag env = false := by
          unfold resolvedVideoFlag
          simp [hA', hu, hyt]
        simp [hA', hu, hyt] at h
        refine ⟨fun hc => (by rw [hflag] at hc; cases hc), fun _ => ?_⟩
        omega
      case neg =>
        rw [Bool.not_eq_true] at hyt
        have hflag : resolvedVideoFlag env = strStartsWith (urlFinalMime env) "video/" := by
          unfold resolvedVideoFlag
          simp [hA', hu, hyt]
        rw [hflag]
        simp [hA', hu, hyt] at h
        split at h
        next n hh =>
          split at h
          · cases h
          · exact processDownloadedUrl_video_count h
        next hh => exact processDownloadedUrl_video_count h
    case neg =>
      rw [Bool.not_eq_true] at hu
      by_cases hp : truthy env.source.path = true
      case pos =>
        have hflag : resolvedVideoFlag env = strStartsWith (pathFinalMime env) "video/" := by
          unfold resolvedVideoFlag
          simp [hA', hu, hp]
        rw [hflag]
        simp [hA', hu, hp] at h
        exact processLocalPath_video_count h
      case neg =>
        rw [Bool.not_eq_true] at hp
        simp [hA', hu, hp] at h

lemma processFiles_video_count :
    ∀ (files : List FileEnv) (vc index : Nat) (pfs : List ProcessedFile) (vcF : Nat),
      vc ≤ 1 →
      processFiles files vc index = .ok (pfs, vcF) →
      vcF = vc + files.countP resolvedVideoFlag ∧ vcF ≤ 1 := by
  intro files
  induction files with
  | nil =>
    intro vc index pfs vcF hvc h
    unfold processFiles at h
    simp only [Except.ok.injEq, Prod.mk.injEq] at h
    obtain ⟨hp, hv⟩ := h
    simp only [List.countP_nil]
    omega
  | cons env rest ih =>
    intro vc index pfs vcF hvc h
    unfold processFiles at h
    cases h1 : processOneFile env index vc with
    | error e =>
      rw [h1] at h
      cases h
    | ok r =>
      obtain ⟨pf, vc2⟩ := r
      rw [h1] at h
      simp only at h
      cases h2 : processFiles rest vc2 (index + 1) with
      | error e =>
        rw [h2] at h
        simp at h
      | ok r2 =>
        obtain ⟨pfs2, vcF2⟩ := r2
        rw [h2] at h
        simp only [Except.ok.injEq, Prod.mk.injEq] at h
        obtain ⟨hps, hvf⟩ := h
        have hone := processOneFile_video_count h1
        by_cases hflag : resolvedVideoFlag env = true
        · obtain ⟨heq, hle⟩ := hone.1 hflag
          obtain ⟨ha, hb⟩ := ih vc2 (index + 1) pfs2 vcF2 hle h2
          have hcount : List.countP resolvedVideoFlag (env :: rest)
              = List.countP resolvedVideoFlag rest + 1 := by
            simp [List.countP_cons, hflag]
          rw [hcount]
          omega
        · rw [Bool.not_eq_true] at hflag
          have heq := hone.2 hflag
          obtain ⟨ha, hb⟩ := ih vc2 (index + 1) pfs2 vcF2 (by omega) h2
          have hcount : List.countP resolvedVideoFlag (env :: rest)
              = List.countP resolvedVideoFlag rest := by
            simp [List.countP_cons, hflag]
          rw [hcount]
          omega

/-- A YouTube video source. -/
def ytEnv : FileEnv :=
  ⟨⟨some "https://www.youtube.com/watch?v=dQw4w9WgXcQ", none, none, none⟩,
    none, none, none, false, 0, [], false, ""⟩

/-- A small local MP4 video source. -/
def mp4Env : FileEnv :=
  ⟨⟨none, some "/tmp/clip.mp4", none, none⟩, none, none, some "video/mp4", false, 1000,
    [0, 1], true, ""⟩

/-- Claim C10 counterexample: a request with two video files — a YouTube
URL and a local file resolving to `video/mp4` — is accepted and reaches
the generation call, because the pre-check counter is reset before the
processing phase and the two checks count disjoint categories. -/
theorem two_videos_accepted :
    handleUnderstandMediaFiles [ytEnv, mp4Env]
      = Except.ok [ProcessedFile.youtube "https://www.youtube.com/watch?v=dQw4w9WgXcQ",
          ProcessedFile.inline "video/mp4" [0, 1]]
    ∧ isYouTubeUrl "https://www.youtube.com/watch?v=dQw4w9WgXcQ" = true
    ∧ strStartsWith "video/mp4" "video/" = true := by
  decide

/-- Claim C10 (amended): an accepted request has at most one file counted
by the pre-check (YouTube URLs and pre-uploaded video MIME types) and at
most one file whose processing-phase resolved MIME type starts with
`video/` — but one of each may coexist, so up to two videos total. -/
theorem video_count_bounds (files : List FileEnv) (plans : List ProcessedFile)
    (h : handleUnderstandMediaFiles files = Except.ok plans) :
    precheckVideoCount files ≤ 1 ∧ files.countP resolvedVideoFlag ≤ 1 := by
  unfold handleUnderstandMediaFiles at h
  split at h
  · cases h
  next hpre =>
    simp only [decide_eq_true_eq, not_lt] at hpre
    refine ⟨hpre, ?_⟩
    cases h2 : processFiles files 0 0 with
    | error e =>
      rw [h2] at h
      cases h
    | ok r =>
      obtain ⟨pfs, vcF⟩ := r
      obtain ⟨hb1, hb2⟩ := processFiles_video_count files 0 0 pfs vcF (by omega) h2
      omega

/-- Witness for `video_count_bounds`: the single-video request. -/
theorem video_count_bounds_witness :
    precheckVideoCount [mp4Env] ≤ 1 ∧ List.countP resolvedVideoFlag [mp4Env] ≤ 1 :=
  video_count_bounds [mp4Env] [ProcessedFile.inline "video/mp4" [0, 1]] (by decide)

end GeminiIntegrator
